import Mathlib

attribute [local semireducible] Rat.add Rat.mul Rat.sub Rat.inv Rat.ofScientific

/-
  Verification of the cost-report attribution and aggregation core
  (cost_reports/finops.py and the process_report step of cost_reports/app.py).

  The embedding models one pandas cell value as `Value` (a Python object that
  is either None, a string, a number, or the float NaN), one billing line item
  as `Row` (the columns that the attribution logic reads), and one row of the
  account directory as `DirEntry`.  Costs are embedded as rationals, so the
  floating-point sums of the source are exact here.  Fallible Python code
  (the `re.sub` TypeError on non-string input, the reconciliation `raise`)
  is embedded with `Except`.
-/

/-- A pandas cell as seen by the Python code: `None`, a string, a number,
or the float NaN.  NaN is kept distinct from other numbers because the
source treats it specially in `notna()` filters. -/
inductive Value where
  | none : Value
  | str : String → Value
  | num : ℚ → Value
  | nan : Value
deriving DecidableEq, Repr

/-- The columns of the joined table that the grouping key functions read
through `safe_at`. -/
inductive Col where
  | cost_center : Col
  | cost_center_other : Col
  | account_cost_center : Col
deriving DecidableEq, Repr

/-- Python exceptions that the embedded code can raise. -/
inductive PyErr where
  | typeError : PyErr
  | reconcileError : PyErr
  | noAccountData : PyErr
  | noCurData : PyErr
deriving DecidableEq, Repr

/-- One billing line item (one row of the cost-and-usage report), restricted
to the columns the attribution logic reads.  The descriptive columns
(line-item type, product name, usage type, description) are read by the
source but never consulted by any decision, so they are omitted. -/
structure Row where
  account_id : String
  cost : ℚ
  cost_center : Value
  cost_center_other : Value
  cloudformation_stack : Value
  service_catalog_principal : Value
deriving DecidableEq, Repr

/-- One row of the account directory (`account_id`, `account_name`,
`account_cost_center` read with dtype str; a missing CSV cell is NaN). -/
structure DirEntry where
  account_id : String
  account_name : Value
  account_cost_center : Value
deriving DecidableEq, Repr

/-- `valid_value` from finops.py:
`if check_value is None or check_value == 'na': return False; return True`.
Note that float NaN is neither `None` nor equal to the string `'na'`,
so the source returns `True` for it. -/
def valid_value : Value → Bool
  | Value.none => false
  | Value.str s => !(s == "na")
  | Value.num _ => true
  | Value.nan => true

/-- The pandas row filters of `main` use `notna() & (col != 'na')`:
false for `None` and NaN, false for the string `'na'`, true otherwise. -/
def pandas_has : Value → Bool
  | Value.none => false
  | Value.nan => false
  | Value.str s => !(s == "na")
  | Value.num _ => true

/-- The inner join of `main`: the (first) directory entry whose
`account_id` equals the line item's usage account id.  The spec requires
account ids to be unique within the directory, so first-match lookup
coincides with the pandas unique-index lookup. -/
def dirFind (dir : List DirEntry) (r : Row) : Option DirEntry :=
  dir.find? (fun e => e.account_id == r.account_id)

/-- `safe_at(joined, row_index, column)`: a row index that was dropped by the
inner join is absent from `joined`, so `df.at` raises KeyError and `safe_at`
returns `None` for every column; otherwise the cell of the joined row. -/
def safe_at (dir : List DirEntry) (r : Row) (c : Col) : Value :=
  match dirFind dir r with
  | Option.none => Value.none
  | some e =>
    match c with
    | Col.cost_center => r.cost_center
    | Col.cost_center_other => r.cost_center_other
    | Col.account_cost_center => e.account_cost_center

/-- The `TAG_REPLACEMENT` synonym table applied with `dict.get(key, key)`. -/
def canon (s : String) : String :=
  if s = "Indirects" then "NO PROGRAM / 000000"
  else if s = "No Program / 000000" then "NO PROGRAM / 000000"
  else s

/-- Flush a pending underscore-digit run: if at least five digits were
collected the regex matched, and `re.sub` emits `" / "` plus the digits,
else the match fails and the original underscore and digits are emitted. -/
def flushPend (buf : List Char) : List Char :=
  if 5 ≤ buf.length then ' ' :: '/' :: ' ' :: buf else '_' :: buf

/-- Character-level embedding of `re.sub(r"(_)([0-9]{5,6})", " / "+digits, s)`:
a left-to-right scan; an underscore opens a pending digit buffer; the greedy
quantifier consumes at most six digits; a run of five or six digits is
replaced, shorter runs are left untouched. -/
def normAux : Option (List Char) → List Char → List Char
  | Option.none, [] => []
  | some buf, [] => flushPend buf
  | Option.none, c :: rest =>
    if c = '_' then normAux (some []) rest else c :: normAux Option.none rest
  | some buf, c :: rest =>
    if c.isDigit then
      (if buf.length == 5 then
        ' ' :: '/' :: ' ' :: (buf ++ [c]) ++ normAux Option.none rest
      else normAux (some (buf ++ [c])) rest)
    else
      flushPend buf ++
        (if c = '_' then normAux (some []) rest else c :: normAux Option.none rest)

/-- The underscore-digit normalization of finops.py line 165 as a function
on strings. -/
def normalizeTag (s : String) : String := String.mk (normAux Option.none s.data)

/-- `cost_center_lookup(df, row_index)` from finops.py.  An invalid primary
value is returned untouched; the exact sentinel `'Other / 000001'` is
replaced by the secondary tag (or by `'Other (Unspecified) / 000001'` when
the secondary tag is invalid); the result is passed to `re.sub`, which
raises TypeError when the value it receives is not a string (NaN and
numeric tag values are `valid_value`-valid and reach `re.sub`); finally the
synonym table is applied. -/
def cost_center_lookup (dir : List DirEntry) (r : Row) : Except PyErr Value :=
  let cc := safe_at dir r Col.cost_center
  if valid_value cc = false then Except.ok cc
  else
    let cc2 :=
      if cc = Value.str "Other / 000001" then
        (let cco := safe_at dir r Col.cost_center_other
         if valid_value cco then cco else Value.str "Other (Unspecified) / 000001")
      else cc
    match cc2 with
    | Value.str s => Except.ok (Value.str (canon (normalizeTag s)))
    | _ => Except.error PyErr.typeError

/-- `group_by_cost_center(df, row_index)` from finops.py: the looked-up tag
if valid, else the account-level default if valid, else
`"Unknown / 999999"`. -/
def group_by_cost_center (dir : List DirEntry) (r : Row) : Except PyErr Value :=
  match cost_center_lookup dir r with
  | Except.error e => Except.error e
  | Except.ok cc =>
    if valid_value cc then Except.ok cc
    else
      let acc := safe_at dir r Col.account_cost_center
      if valid_value acc then Except.ok acc
      else Except.ok (Value.str "Unknown / 999999")

/-- Map a fallible key function over a list, propagating the first raised
exception, as iterating a Python function over the rows does. -/
def mapE (f : Row → Except PyErr Value) : List Row → Except PyErr (List Value)
  | [] => Except.ok []
  | a :: t =>
    match f a with
    | Except.error e => Except.error e
    | Except.ok b =>
      match mapE f t with
      | Except.error e => Except.error e
      | Except.ok bs => Except.ok (b :: bs)

/-- `groupby(key).sum()`: one pair per distinct key, carrying the sum of the
costs of the rows with that key. -/
def groupSums {K : Type} [DecidableEq K] (l : List (K × ℚ)) : List (K × ℚ) :=
  (l.map Prod.fst).dedup.map
    (fun k => (k, ((l.filter (fun p => decide (p.1 = k))).map Prod.snd).sum))

/-- Insert a pair into a list that is sorted by descending cost. -/
def insertDesc {K : Type} (p : K × ℚ) : List (K × ℚ) → List (K × ℚ)
  | [] => [p]
  | q :: t => if q.2 ≤ p.2 then p :: q :: t else q :: insertDesc p t

/-- `sort_values(VALUE_COLUMN, ascending=False)`: sort pairs by descending
cost (the order of equal costs is unspecified in the source). -/
def sortDesc {K : Type} (l : List (K × ℚ)) : List (K × ℚ) :=
  l.foldr insertDesc []

/-- Floor of a rational, computed on the numerator and denominator. -/
def qfloor (q : ℚ) : Int := q.num.fdiv (Int.ofNat q.den)

/-- Rounding to the nearest integer, as the two-decimal float format does. -/
def qround (q : ℚ) : Int := qfloor (q + 1/2)

/-- Two-digit zero-padded decimal fraction. -/
def pad2 (n : Nat) : String := if n < 10 then "0" ++ toString n else toString n

/-- The `f"${x:.2f}"` currency format of `main`: the value rounded to two
decimal digits. -/
def fmt2 (q : ℚ) : String :=
  let n := qround (q * 100)
  if n < 0 then
    "-" ++ toString ((-n).toNat / 100) ++ "." ++ pad2 ((-n).toNat % 100)
  else
    toString (n.toNat / 100) ++ "." ++ pad2 (n.toNat % 100)

/-- Python `str()` of a cell, used when a tag value is interpolated into an
f-string: `None`, `nan`, the string itself, or a numeric literal (whose
exact decimal rendering is abstracted by the rational `toString`). -/
def pyStr : Value → String
  | Value.none => "None"
  | Value.nan => "nan"
  | Value.str s => s
  | Value.num q => toString q

/-- One displayed line of a summed table (stand-in for the row rendering of
`DataFrame.to_string` with the `${x:.2f}` float format). -/
def renderRowS (p : String × ℚ) : String := p.1 ++ "  $" ++ fmt2 p.2 ++ "\n"

/-- Stand-in for `DataFrame.to_string` on a table with string labels. -/
def renderTableS (l : List (String × ℚ)) : String := String.join (l.map renderRowS)

/-- One displayed line of the cost-center table. -/
def renderRowV (p : Value × ℚ) : String := pyStr p.1 ++ "  $" ++ fmt2 p.2 ++ "\n"

/-- Stand-in for `DataFrame.to_string` on the cost-center table. -/
def renderTableV (l : List (Value × ℚ)) : String := String.join (l.map renderRowV)

/-- The pre-join, pre-filter total of `main` line 63:
`acct_rows[VALUE_COLUMN].sum()` over every line item. -/
def totalCost (bill : List Row) : ℚ := (bill.map Row.cost).sum

/-- The inner-joined table: the line items whose account id has a directory
match (`joined` in `main`). -/
def joined_rows (bill : List Row) (dir : List DirEntry) : List Row :=
  bill.filter (fun r => (dirFind dir r).isSome)

/-- The joined `account_cost_center` cell of a line item. -/
def acc_value (dir : List DirEntry) (r : Row) : Value :=
  match dirFind dir r with
  | some e => e.account_cost_center
  | Option.none => Value.none

/-- `has_center` in `main`: joined rows where the line-item tag or the
account default is present and not `'na'`. -/
def has_center_rows (bill : List Row) (dir : List DirEntry) : List Row :=
  (joined_rows bill dir).filter
    (fun r => pandas_has r.cost_center || pandas_has (acc_value dir r))

/-- `no_center` in `main`: joined rows where both the line-item tag and the
account default are absent or `'na'`. -/
def no_center_rows (bill : List Row) (dir : List DirEntry) : List Row :=
  (joined_rows bill dir).filter
    (fun r => !(pandas_has r.cost_center) && !(pandas_has (acc_value dir r)))

/-- `group_by_tag(df, row_index, tag_column, heading)` from finops.py. -/
def group_by_tag (tag : Value) (heading : String) : String :=
  if valid_value tag = false then heading ++ " / None"
  else heading ++ " / " ++ pyStr tag

/-- `by_center.sum().sort_values(...)`: all line items (not only joined
ones) grouped by their resolved cost center, summed, sorted descending.
The grouping key function raises on the first malformed tag it meets. -/
def centerGroups (bill : List Row) (dir : List DirEntry) :
    Except PyErr (List (Value × ℚ)) :=
  match mapE (group_by_cost_center dir) bill with
  | Except.error e => Except.error e
  | Except.ok ks => Except.ok (sortDesc (groupSums (ks.zip (bill.map Row.cost))))

/-- `by_stack.sum().sort_values(...)`: the no-center rows grouped by their
CloudFormation stack heading. -/
def stackSummed (bill : List Row) (dir : List DirEntry) : List (String × ℚ) :=
  sortDesc (groupSums ((no_center_rows bill dir).map
    (fun r => (group_by_tag r.cloudformation_stack "Cloudformation Stack", r.cost))))

/-- `by_catalog.sum().sort_values(...)`: the no-center rows grouped by their
Service Catalog provisioner heading. -/
def catalogSummed (bill : List Row) (dir : List DirEntry) : List (String × ℚ) :=
  sortDesc (groupSums ((no_center_rows bill dir).map
    (fun r => (group_by_tag r.service_catalog_principal "Service Catalog Provisioner", r.cost))))

/-- `summed[summed[VALUE_COLUMN] >= 0.01]` in `main` line 125: only groups
summing to at least one cent are kept for display in the
"Costs without a known Program" sections. -/
def renderedNoCenter (summed : List (String × ℚ)) : List (String × ℚ) :=
  summed.filter (fun p => decide ((1 : ℚ)/100 ≤ p.2))

/-- Lines 117-120 of `main`: compare the categorized total against the
month total and raise when they disagree by more than 0.01, otherwise
append the total line to the report body. -/
def reconcile_check (total total_cost : ℚ) (body : String) : Except PyErr String :=
  if (1 : ℚ)/100 < |total - total_cost| then Except.error PyErr.reconcileError
  else Except.ok (body ++ "\nTotal: $" ++ fmt2 total ++ "\n")

/-- One "Costs without a known Program" section of the report. -/
def renderNoCenterSection (summed : List (String × ℚ)) : String :=
  "\nCosts without a known Program\n" ++ renderTableS (renderedNoCenter summed)

/-- `finops.main(cur_parquet, account_csv)` on already-loaded tables:
produce the report body, or raise. -/
def mainRun (bill : List Row) (dir : List DirEntry) : Except PyErr String :=
  match centerGroups bill dir with
  | Except.error e => Except.error e
  | Except.ok center_summed =>
    let body :=
      "Total line items: " ++ toString (joined_rows bill dir).length ++ "\n" ++
      "Rows with Cost Center data: " ++ toString (has_center_rows bill dir).length ++ "\n" ++
      "Rows without Cost Center data: " ++ toString (no_center_rows bill dir).length ++ "\n" ++
      "\nCosts by Program\n" ++ renderTableV center_summed
    let total := (center_summed.map Prod.snd).sum
    match reconcile_check total (totalCost bill) body with
    | Except.error e => Except.error e
    | Except.ok checked =>
      Except.ok (checked ++ renderNoCenterSection (stackSummed bill dir)
                         ++ renderNoCenterSection (catalogSummed bill dir))

/-- The produced report, with a raise rendered as the empty report. -/
def reportOf (bill : List Row) (dir : List DirEntry) : String :=
  match mainRun bill dir with
  | Except.ok s => s
  | Except.error _ => ""

/-- The state of `App` that `process_report` consults: the loaded account
directory and the (possibly not yet downloaded) cost-and-usage table. -/
structure AppState where
  account_dict : List DirEntry
  cur_parquet : Option (List Row)

/-- Python `self.account_dict is \x7b\x7d` from app.py line 144: an identity
comparison against a freshly allocated empty dict literal, which is false
for every operand, empty or not. -/
def py_is_fresh_dict (_d : List DirEntry) : Bool := false

/-- `App.process_report` from app.py lines 141-150: the two input checks,
then the aggregation. -/
def process_report (st : AppState) : Except PyErr String :=
  if py_is_fresh_dict st.account_dict then Except.error PyErr.noAccountData
  else
    match st.cur_parquet with
    | Option.none => Except.error PyErr.noCurData
    | some bill => mainRun bill st.account_dict

/-- Whether an embedded Python call returned normally. -/
def exceptIsOk (x : Except PyErr String) : Bool :=
  match x with
  | Except.ok _ => true
  | Except.error _ => false

/-- Character-list prefix test, used for the substring scan. -/
def leadMatch : List Char → List Char → Bool
  | [], _ => true
  | _ :: _, [] => false
  | a :: as, b :: bs => a == b && leadMatch as bs

/-- Substring scan over character lists. -/
def subScan : List Char → List Char → Bool
  | needle, [] => leadMatch needle []
  | needle, c :: t => leadMatch needle (c :: t) || subScan needle t

/-- Whether `needle` occurs as a substring of `hay`. -/
def strContains (hay needle : String) : Bool := subScan needle.data hay.data


/-- The month total of the test fixture: `101823.8892761993`. -/
def fixtureCost : ℚ := Rat.divInt 1018238892761993 10000000000

/-- A one-line-item billing table realizing the fixture total. -/
def fixtureBill : List Row :=
  [{ account_id := "804034162148", cost := fixtureCost,
     cost_center := Value.str "Test / 123123",
     cost_center_other := Value.none,
     cloudformation_stack := Value.none,
     service_catalog_principal := Value.none }]

/-- The account directory joined against the fixture. -/
def fixtureDir : List DirEntry :=
  [{ account_id := "804034162148", account_name := Value.str "itsandbox",
     account_cost_center := Value.str "Platform Infrastructure / 990300" }]


theorem mapE_length (f : Row → Except PyErr Value) :
    ∀ (l : List Row) (ks : List Value), mapE f l = Except.ok ks → ks.length = l.length := by
  intro l
  induction l with
  | nil =>
    intro ks h
    simp only [mapE] at h
    cases h
    rfl
  | cons a t ih =>
    intro ks h
    simp only [mapE] at h
    cases hfa : f a with
    | error e => rw [hfa] at h; cases h
    | ok b =>
      rw [hfa] at h
      cases hmt : mapE f t with
      | error e => rw [hmt] at h; cases h
      | ok bs =>
        rw [hmt] at h
        cases h
        simp [ih bs hmt]

theorem zip_map_snd {α β : Type} :
    ∀ (xs : List α) (ys : List β), xs.length = ys.length →
      (xs.zip ys).map Prod.snd = ys := by
  intro xs
  induction xs with
  | nil => intro ys h; cases ys with
    | nil => rfl
    | cons y t => cases h
  | cons x t ih =>
    intro ys h
    cases ys with
    | nil => cases h
    | cons y u =>
      simp only [List.zip_cons_cons, List.map_cons]
      rw [ih u (by simpa using h)]

theorem zip_map_fst {α β : Type} :
    ∀ (xs : List α) (ys : List β), xs.length = ys.length →
      (xs.zip ys).map Prod.fst = xs := by
  intro xs
  induction xs with
  | nil => intro ys h; rfl
  | cons x t ih =>
    intro ys h
    cases ys with
    | nil => cases h
    | cons y u =>
      simp only [List.zip_cons_cons, List.map_cons]
      rw [ih u (by simpa using h)]

theorem list_sum_map_add {K : Type} (f g : K → ℚ) (ks : List K) :
    (ks.map (fun k => f k + g k)).sum = (ks.map f).sum + (ks.map g).sum := by
  induction ks with
  | nil => simp
  | cons c t ih => simp [ih]; ring

theorem sum_ite_single {K : Type} [DecidableEq K] (ks : List K) (k0 : K) (v : ℚ)
    (hnd : ks.Nodup) (h : k0 ∈ ks) :
    (ks.map (fun k => if k0 = k then v else 0)).sum = v := by
  induction ks with
  | nil => simp at h
  | cons c t ih =>
    rw [List.nodup_cons] at hnd
    rcases List.mem_cons.mp h with rfl | hmem
    · have hz : ((t.map (fun k => if k0 = k then v else 0)).sum) = 0 := by
        apply List.sum_eq_zero
        intro x hx
        rcases List.mem_map.mp hx with ⟨k, hk, rfl⟩
        rw [if_neg]
        intro he
        exact hnd.1 (he ▸ hk)
      simp [hz]
    · have hne : k0 ≠ c := by
        intro he
        exact hnd.1 (he ▸ hmem)
      simp only [List.map_cons, List.sum_cons, if_neg hne, zero_add]
      exact ih hnd.2 hmem

theorem sum_over_keys {K : Type} [DecidableEq K] (l : List (K × ℚ)) (ks : List K)
    (hnd : ks.Nodup) (hcov : ∀ p ∈ l, p.1 ∈ ks) :
    (ks.map (fun k => ((l.filter (fun p => decide (p.1 = k))).map Prod.snd).sum)).sum
      = (l.map Prod.snd).sum := by
  induction l with
  | nil =>
    simp
  | cons a t ih =>
    have step : ∀ k : K,
        (((a :: t).filter (fun p => decide (p.1 = k))).map Prod.snd).sum
          = (if a.1 = k then a.2 else 0)
            + ((t.filter (fun p => decide (p.1 = k))).map Prod.snd).sum := by
      intro k
      by_cases h : a.1 = k <;> simp [List.filter_cons, h]
    simp only [step]
    rw [list_sum_map_add]
    rw [sum_ite_single ks a.1 a.2 hnd (hcov a (List.mem_cons_self a t))]
    rw [ih (fun p hp => hcov p (List.mem_cons_of_mem a hp))]
    simp

theorem sum_groupSums {K : Type} [DecidableEq K] (l : List (K × ℚ)) :
    ((groupSums l).map Prod.snd).sum = (l.map Prod.snd).sum := by
  unfold groupSums
  rw [List.map_map]
  have hc : (Prod.snd ∘ fun k =>
      (k, ((l.filter (fun p => decide (p.1 = k))).map Prod.snd).sum))
      = fun k => ((l.filter (fun p => decide (p.1 = k))).map Prod.snd).sum := rfl
  rw [hc]
  exact sum_over_keys l (l.map Prod.fst).dedup (l.map Prod.fst).nodup_dedup
    (fun p hp => List.mem_dedup.mpr (List.mem_map_of_mem Prod.fst hp))

theorem groupSums_mem_key {K : Type} [DecidableEq K] (l : List (K × ℚ)) (k : K)
    (h : k ∈ l.map Prod.fst) : ∃ q : ℚ, (k, q) ∈ groupSums l := by
  refine ⟨((l.filter (fun p => decide (p.1 = k))).map Prod.snd).sum, ?_⟩
  exact List.mem_map_of_mem _ (List.mem_dedup.mpr h)

theorem mem_insertDesc {K : Type} (p x : K × ℚ) :
    ∀ l : List (K × ℚ), x ∈ insertDesc p l ↔ x = p ∨ x ∈ l := by
  intro l
  induction l with
  | nil => simp [insertDesc]
  | cons q t ih =>
    by_cases hc : q.2 ≤ p.2
    · simp [insertDesc, hc, List.mem_cons]
    · simp [insertDesc, hc, List.mem_cons, ih]
      tauto

theorem sum_insertDesc {K : Type} (p : K × ℚ) :
    ∀ l : List (K × ℚ), ((insertDesc p l).map Prod.snd).sum
      = p.2 + (l.map Prod.snd).sum := by
  intro l
  induction l with
  | nil => simp [insertDesc]
  | cons q t ih =>
    by_cases hc : q.2 ≤ p.2
    · simp [insertDesc, hc]
    · simp [insertDesc, hc, ih]
      ring

theorem sum_sortDesc {K : Type} (l : List (K × ℚ)) :
    ((sortDesc l).map Prod.snd).sum = (l.map Prod.snd).sum := by
  induction l with
  | nil => rfl
  | cons a t ih =>
    have : sortDesc (a :: t) = insertDesc a (sortDesc t) := rfl
    rw [this, sum_insertDesc, ih]
    simp

theorem mem_sortDesc {K : Type} (x : K × ℚ) :
    ∀ l : List (K × ℚ), x ∈ sortDesc l ↔ x ∈ l := by
  intro l
  induction l with
  | nil => simp [sortDesc]
  | cons a t ih =>
    have : sortDesc (a :: t) = insertDesc a (sortDesc t) := rfl
    rw [this, mem_insertDesc, ih]
    simp [List.mem_cons]

theorem pairwise_insertDesc {K : Type} (p : K × ℚ) :
    ∀ l : List (K × ℚ), l.Pairwise (fun a b => b.2 ≤ a.2) →
      (insertDesc p l).Pairwise (fun a b => b.2 ≤ a.2) := by
  intro l
  induction l with
  | nil => intro _; simp [insertDesc]
  | cons q t ih =>
    intro h
    rw [List.pairwise_cons] at h
    by_cases hc : q.2 ≤ p.2
    · simp only [insertDesc, if_pos hc]
      refine List.Pairwise.cons ?_ (List.Pairwise.cons h.1 h.2)
      intro x hx
      rcases List.mem_cons.mp hx with rfl | hxt
      · exact hc
      · exact le_trans (h.1 x hxt) hc
    · simp only [insertDesc, if_neg hc]
      refine List.Pairwise.cons ?_ (ih h.2)
      intro x hx
      rcases (mem_insertDesc p x t).mp hx with rfl | hxt
      · exact le_of_not_le hc
      · exact h.1 x hxt

theorem pairwise_sortDesc {K : Type} (l : List (K × ℚ)) :
    (sortDesc l).Pairwise (fun a b => b.2 ≤ a.2) := by
  induction l with
  | nil => simp [sortDesc]
  | cons a t ih => exact pairwise_insertDesc a (sortDesc t) ih

theorem normAux_some_head :
    ∀ (l buf : List Char),
      (normAux (some buf) l).head? = some ' '
        ∨ (normAux (some buf) l).head? = some '_' := by
  intro l
  induction l with
  | nil =>
    intro buf
    by_cases h : 5 ≤ buf.length <;> simp [normAux, flushPend, h]
  | cons c rest ih =>
    intro buf
    by_cases hd : c.isDigit
    · by_cases hb : buf.length = 5
      · simp [normAux, hd, hb]
      · simpa [normAux, hd, hb] using ih (buf ++ [c])
    · by_cases h5 : 5 ≤ buf.length <;>
        by_cases hu : c = '_' <;>
        simp [normAux, flushPend, hd, h5, hu]

theorem normAux_none_nil :
    ∀ l : List Char, normAux Option.none l = [] → l = [] := by
  intro l
  cases l with
  | nil => intro _; rfl
  | cons c rest =>
    intro h
    by_cases hc : c = '_'
    · simp only [normAux, if_pos hc] at h
      rcases normAux_some_head rest [] with h' | h' <;> rw [h] at h' <;> cases h'
    · simp only [normAux, if_neg hc] at h
      cases h

theorem normAux_none_na :
    ∀ l : List Char, normAux Option.none l = ['n', 'a'] → l = ['n', 'a'] := by
  intro l
  cases l with
  | nil => intro h; cases h
  | cons c rest =>
    intro h
    by_cases hc : c = '_'
    · simp only [normAux, if_pos hc] at h
      rcases normAux_some_head rest [] with h' | h' <;> rw [h] at h' <;> cases h'
    · simp only [normAux, if_neg hc] at h
      have hcn : c = 'n' := by
        have := congrArg List.head? h
        simpa using this
      have htail : normAux Option.none rest = ['a'] := by
        have := congrArg List.tail h
        simpa using this
      subst hcn
      cases rest with
      | nil => cases htail
      | cons c2 rest2 =>
        by_cases hc2 : c2 = '_'
        · simp only [normAux, if_pos hc2] at htail
          rcases normAux_some_head rest2 [] with h' | h' <;> rw [htail] at h' <;> cases h'
        · simp only [normAux, if_neg hc2] at htail
          have hca : c2 = 'a' := by
            have := congrArg List.head? htail
            simpa using this
          have htail2 : normAux Option.none rest2 = [] := by
            have := congrArg List.tail htail
            simpa using this
          subst hca
          rw [normAux_none_nil rest2 htail2]

theorem canon_eq_na (s : String) : canon s = "na" → s = "na" := by
  unfold canon
  split_ifs with h1 h2 <;> intro h
  · exact absurd h (by decide)
  · exact absurd h (by decide)
  · exact h

theorem normalizeTag_eq_na (s : String) : normalizeTag s = "na" → s = "na" := by
  intro h
  have hd : normAux Option.none s.data = ['n', 'a'] := by
    have h2 := congrArg String.data h
    simpa [normalizeTag] using h2
  have h3 := normAux_none_na s.data hd
  cases s with
  | mk d =>
    have h4 : d = ['n', 'a'] := h3
    rw [h4]

theorem valid_canon_normalizeTag (s : String) (hs : s ≠ "na") :
    valid_value (Value.str (canon (normalizeTag s))) = true := by
  have hne : canon (normalizeTag s) ≠ "na" :=
    fun h => hs (normalizeTag_eq_na s (canon_eq_na (normalizeTag s) h))
  simp [valid_value, hne]

/-- The directory entry of the fixture account. -/
def fixtureEntry : DirEntry :=
  { account_id := "804034162148", account_name := Value.str "itsandbox",
    account_cost_center := Value.str "Platform Infrastructure / 990300" }

/-- A line item whose `cost_center` tag is the float NaN. -/
def nanRow : Row :=
  { account_id := "804034162148", cost := 1,
    cost_center := Value.nan,
    cost_center_other := Value.none,
    cloudformation_stack := Value.none,
    service_catalog_principal := Value.none }

/-- A line item whose `cost_center` tag is the number `1.23`. -/
def numRow : Row :=
  { account_id := "804034162148", cost := 1,
    cost_center := Value.num (Rat.divInt 123 100),
    cost_center_other := Value.none,
    cloudformation_stack := Value.none,
    service_catalog_principal := Value.none }

/-- A line item carrying the `Other` sentinel and a secondary tag that the
synonym table rewrites. -/
def otherSynonymRow : Row :=
  { account_id := "804034162148", cost := 1,
    cost_center := Value.str "Other / 000001",
    cost_center_other := Value.str "No Program / 000000",
    cloudformation_stack := Value.none,
    service_catalog_principal := Value.none }

/-- The end-to-end escalation scenario of the spec: `Other / 000001` with a
valid secondary tag. -/
def otherTestRow : Row :=
  { account_id := "804034162148", cost := 1,
    cost_center := Value.str "Other / 000001",
    cost_center_other := Value.str "Test Other / 456456",
    cloudformation_stack := Value.none,
    service_catalog_principal := Value.none }

/-- A line item with a legacy underscore-separated tag. -/
def underscoreRow : Row :=
  { account_id := "804034162148", cost := 1,
    cost_center := Value.str "Name_123456",
    cost_center_other := Value.none,
    cloudformation_stack := Value.none,
    service_catalog_principal := Value.none }

/-- A directory whose default cost center is the synonym `Indirects`. -/
def indirectsDir : List DirEntry :=
  [{ account_id := "222", account_name := Value.none,
     account_cost_center := Value.str "Indirects" }]

/-- A line item with no tag of its own in the `Indirects` account. -/
def indirectsRow : Row :=
  { account_id := "222", cost := 1,
    cost_center := Value.none,
    cost_center_other := Value.none,
    cloudformation_stack := Value.none,
    service_catalog_principal := Value.none }

/-- A billing table whose only line item costs exactly zero. -/
def zeroBill : List Row :=
  [{ account_id := "804034162148", cost := 0,
     cost_center := Value.str "Test / 123123",
     cost_center_other := Value.none,
     cloudformation_stack := Value.none,
     service_catalog_principal := Value.none }]

/-- A line item whose account id has no directory entry. -/
def unknownRow : Row :=
  { account_id := "999", cost := 1,
    cost_center := Value.str "Test / 123123",
    cost_center_other := Value.none,
    cloudformation_stack := Value.none,
    service_catalog_principal := Value.none }

/-- A no-center line item whose CloudFormation stack group sums to half a
cent. -/
def smallBill : List Row :=
  [{ account_id := "111", cost := Rat.divInt 1 200,
     cost_center := Value.none,
     cost_center_other := Value.none,
     cloudformation_stack := Value.str "mystack",
     service_catalog_principal := Value.none }]

/-- The directory joined against `smallBill`, with no account default. -/
def smallDir : List DirEntry :=
  [{ account_id := "111", account_name := Value.none,
     account_cost_center := Value.none }]

/-- Claim C1: for every billing and directory input accepted by aggregation,
the sum of the per-cost-center group sums differs from the pre-filter total
of all line-item costs by at most 0.01 (in the exact-arithmetic embedding
it is equal), and the reconciliation step raises, before the total line is
appended to the report, whenever the bound is exceeded. -/
theorem claim1_reconciliation :
    (∀ (bill : List Row) (dir : List DirEntry) (gs : List (Value × ℚ)),
        centerGroups bill dir = Except.ok gs →
        |(gs.map Prod.snd).sum - totalCost bill| ≤ 1/100)
    ∧ (∀ (t tc : ℚ) (body : String), 1/100 < |t - tc| →
        reconcile_check t tc body = Except.error PyErr.reconcileError) := by
  constructor
  · intro bill dir gs h
    unfold centerGroups at h
    cases hks : mapE (group_by_cost_center dir) bill with
    | error e => rw [hks] at h; cases h
    | ok ks =>
      rw [hks] at h
      cases h
      have hlen : ks.length = bill.length := mapE_length _ bill ks hks
      have hz : ((ks.zip (bill.map Row.cost)).map Prod.snd) = bill.map Row.cost :=
        zip_map_snd ks (bill.map Row.cost) (by simp [hlen])
      rw [sum_sortDesc, sum_groupSums, hz]
      unfold totalCost
      rw [sub_self, abs_zero]
      norm_num
  · intro t tc body h
    unfold reconcile_check
    rw [if_pos h]

/-- Witness for C1 at the fixture input, plus a concrete mismatch that the
check rejects. -/
theorem claim1_reconciliation_witness :
    (centerGroups fixtureBill fixtureDir
        = Except.ok [(Value.str "Test / 123123", fixtureCost)])
    ∧ |(([(Value.str "Test / 123123", fixtureCost)] : List (Value × ℚ)).map
        Prod.snd).sum - totalCost fixtureBill| ≤ 1/100
    ∧ reconcile_check 1 0 "" = Except.error PyErr.reconcileError := by
  refine ⟨rfl, claim1_reconciliation.1 fixtureBill fixtureDir _ rfl, ?_⟩
  exact claim1_reconciliation.2 1 0 "" (by rw [sub_zero, abs_one]; norm_num)

/-- Claim C3: the source validity predicate is false for `None` and the
string `'na'`, but — diverging from the claim and from the repository's own
unit test `test_valid_values` — it is true for the float NaN, because NaN
is neither `None` nor equal to `'na'`. -/
theorem claim3_valid_value_nan :
    valid_value Value.nan = true
    ∧ valid_value Value.none = false
    ∧ valid_value (Value.str "na") = false
    ∧ valid_value (Value.str "anything else") = true
    ∧ valid_value (Value.num (Rat.divInt 123 100)) = true := by
  refine ⟨rfl, rfl, ?_, ?_, rfl⟩ <;> decide

/-- Claim C4: the per-line-item resolution is not total — a numeric
`cost_center` tag (here `1.23`) passes `valid_value` and reaches `re.sub`,
which raises TypeError, so the grouping key function raises instead of
returning a label. -/
theorem claim4_lookup_raises_typeerror :
    cost_center_lookup fixtureDir numRow = Except.error PyErr.typeError
    ∧ group_by_cost_center fixtureDir numRow = Except.error PyErr.typeError :=
  ⟨rfl, rfl⟩

/-- Claim C2: the fallback chain is broken by NaN — a line item whose
`cost_center` tag is NaN and whose joined account default is the valid
string `'Platform Infrastructure / 990300'` does not resolve to the account
default; the NaN is treated as valid, handed to `re.sub`, and a TypeError
is raised. -/
theorem claim2_nan_tag_crashes :
    group_by_cost_center fixtureDir nanRow = Except.error PyErr.typeError
    ∧ group_by_cost_center fixtureDir nanRow
        ≠ Except.ok (Value.str "Platform Infrastructure / 990300") := by
  constructor
  · rfl
  · intro h
    rw [show group_by_cost_center fixtureDir nanRow
        = Except.error PyErr.typeError from rfl] at h
    cases h

/-- Claim C8: `process_report` does not reject an empty account directory —
the check `self.account_dict is \x7b\x7d` compares identity against a fresh
literal and is always false, so attribution is invoked and a report comes
back; the missing-billing-data check, by contrast, does raise. -/
theorem claim8_empty_directory_not_rejected :
    exceptIsOk (process_report ⟨[], some [unknownRow]⟩) = true
    ∧ process_report ⟨[], some [unknownRow]⟩ = mainRun [unknownRow] []
    ∧ process_report ⟨fixtureDir, Option.none⟩ = Except.error PyErr.noCurData :=
  ⟨rfl, rfl, rfl⟩

/-- When the line-item tag is invalid, `group_by_cost_center` falls through
to the joined account default (returned verbatim) or the terminal label. -/
theorem group_by_invalid_cc (dir : List DirEntry) (r : Row) (e : DirEntry)
    (he : dirFind dir r = some e) (hcc : valid_value r.cost_center = false) :
    group_by_cost_center dir r
      = (if valid_value e.account_cost_center then Except.ok e.account_cost_center
         else Except.ok (Value.str "Unknown / 999999")) := by
  unfold group_by_cost_center cost_center_lookup safe_at
  rw [he]
  simp [hcc]

/-- Counterexample to claim C5 as stated: with `cost_center = 'Other / 000001'`
and the valid secondary tag `'No Program / 000000'`, resolution does not
return the secondary tag itself — the synonym table rewrites it to
`'NO PROGRAM / 000000'`. -/
theorem claim5_counterexample :
    group_by_cost_center fixtureDir otherSynonymRow
        = Except.ok (Value.str "NO PROGRAM / 000000")
    ∧ group_by_cost_center fixtureDir otherSynonymRow
        ≠ Except.ok (Value.str "No Program / 000000") := by
  constructor
  · rfl
  · intro h
    rw [show group_by_cost_center fixtureDir otherSynonymRow
        = Except.ok (Value.str "NO PROGRAM / 000000") from rfl] at h
    injection h with h2
    injection h2 with h3
    exact absurd h3 (by decide)

/-- Claim C5 (amended): when the tag equals `'Other / 000001'` exactly, a
valid string secondary tag is escalated to and then normalized and
canonicalized; an absent or `'na'` secondary tag falls back to the sentinel
`'Other (Unspecified) / 000001'`. -/
theorem claim5_escalation_amended :
    (∀ (dir : List DirEntry) (r : Row) (e : DirEntry) (s : String),
        dirFind dir r = some e →
        r.cost_center = Value.str "Other / 000001" →
        r.cost_center_other = Value.str s → s ≠ "na" →
        group_by_cost_center dir r
          = Except.ok (Value.str (canon (normalizeTag s))))
    ∧ (∀ (dir : List DirEntry) (r : Row) (e : DirEntry),
        dirFind dir r = some e →
        r.cost_center = Value.str "Other / 000001" →
        (r.cost_center_other = Value.none ∨ r.cost_center_other = Value.str "na") →
        group_by_cost_center dir r
          = Except.ok (Value.str "Other (Unspecified) / 000001")) := by
  constructor
  · intro dir r e s he hcc hcco hs
    unfold group_by_cost_center cost_center_lookup safe_at
    rw [he, hcc, hcco]
    simp only [valid_value, hs]
    simp [valid_value, hs]
    intro hna
    exact absurd (normalizeTag_eq_na s (canon_eq_na (normalizeTag s) hna)) hs
  · intro dir r e he hcc hcco
    unfold group_by_cost_center cost_center_lookup safe_at
    rw [he, hcc]
    rcases hcco with h | h <;> rw [h] <;> rfl

/-- Witness for C5 at the spec's end-to-end scenario: the secondary tag
`'Test Other / 456456'` is returned. -/
theorem claim5_escalation_witness :
    dirFind fixtureDir otherTestRow = some fixtureEntry
    ∧ group_by_cost_center fixtureDir otherTestRow
        = Except.ok (Value.str "Test Other / 456456") :=
  ⟨rfl, claim5_escalation_amended.1 fixtureDir otherTestRow fixtureEntry
    "Test Other / 456456" rfl rfl rfl (by decide)⟩

/-- Counterexample to claim C6 as stated: a resolved value produced by the
account-level fallback is not canonicalized — the account default
`'Indirects'` is returned verbatim instead of `'NO PROGRAM / 000000'`. -/
theorem claim6_counterexample :
    group_by_cost_center indirectsDir indirectsRow
        = Except.ok (Value.str "Indirects")
    ∧ group_by_cost_center indirectsDir indirectsRow
        ≠ Except.ok (Value.str "NO PROGRAM / 000000") := by
  constructor
  · rfl
  · intro h
    rw [show group_by_cost_center indirectsDir indirectsRow
        = Except.ok (Value.str "Indirects") from rfl] at h
    injection h with h2
    injection h2 with h3
    exact absurd h3 (by decide)

/-- Claim C6 (amended): the underscore normalization and the synonym table
are applied to values resolved from the line item's own tag, while the
account-level fallback is returned verbatim and the terminal fallback is
the fixed string `'Unknown / 999999'`. -/
theorem claim6_normalization_amended :
    (∀ (dir : List DirEntry) (r : Row) (e : DirEntry) (s : String),
        dirFind dir r = some e → r.cost_center = Value.str s →
        s ≠ "na" → s ≠ "Other / 000001" →
        group_by_cost_center dir r
          = Except.ok (Value.str (canon (normalizeTag s))))
    ∧ (∀ (dir : List DirEntry) (r : Row) (e : DirEntry),
        dirFind dir r = some e →
        (r.cost_center = Value.none ∨ r.cost_center = Value.str "na") →
        valid_value e.account_cost_center = true →
        group_by_cost_center dir r = Except.ok e.account_cost_center)
    ∧ (∀ (dir : List DirEntry) (r : Row),
        dirFind dir r = Option.none →
        group_by_cost_center dir r = Except.ok (Value.str "Unknown / 999999")) := by
  refine ⟨?_, ?_, ?_⟩
  · intro dir r e s he hcc hs hso
    unfold group_by_cost_center cost_center_lookup safe_at
    rw [he, hcc]
    simp [valid_value, hs, hso]
    intro hna
    exact absurd (normalizeTag_eq_na s (canon_eq_na (normalizeTag s) hna)) hs
  · intro dir r e he hcc hv
    have hinv : valid_value r.cost_center = false := by
      rcases hcc with h | h <;> rw [h] <;> rfl
    rw [group_by_invalid_cc dir r e he hinv, if_pos hv]
  · intro dir r he
    unfold group_by_cost_center cost_center_lookup safe_at
    rw [he]
    rfl

/-- Witness for C6: a legacy underscore tag is normalized on the tag path,
and the synonym table is exercised through the counterexample input. -/
theorem claim6_normalization_witness :
    dirFind fixtureDir underscoreRow = some fixtureEntry
    ∧ group_by_cost_center fixtureDir underscoreRow
        = Except.ok (Value.str "Name / 123456") :=
  ⟨rfl, claim6_normalization_amended.1 fixtureDir underscoreRow fixtureEntry
    "Name_123456" rfl rfl (by decide) (by decide)⟩

/-- Counterexample to claim C7 as stated: a line item whose cost is exactly
zero is not filtered out — its group, with sum zero, appears in the grouped
output. -/
theorem claim7_counterexample :
    centerGroups zeroBill fixtureDir
        = Except.ok [(Value.str "Test / 123123", 0)]
    ∧ centerGroups zeroBill fixtureDir ≠ Except.ok [] := by
  constructor
  · rfl
  · intro h
    rw [show centerGroups zeroBill fixtureDir
        = Except.ok [(Value.str "Test / 123123", 0)] from rfl] at h
    injection h with h2
    cases h2

/-- Claim C7 (amended): no zero-cost filtering occurs — every line item,
including zero-cost ones, contributes its resolved key to the grouped
output; and the reconciliation baseline sums every row. -/
theorem claim7_no_zero_filter_amended :
    ∀ (bill : List Row) (dir : List DirEntry) (ks : List Value)
      (gs : List (Value × ℚ)),
      mapE (group_by_cost_center dir) bill = Except.ok ks →
      centerGroups bill dir = Except.ok gs →
      ∀ k, k ∈ ks → ∃ q : ℚ, (k, q) ∈ gs := by
  intro bill dir ks gs hks hgs k hk
  unfold centerGroups at hgs
  rw [hks] at hgs
  cases hgs
  have hlen : ks.length = bill.length := mapE_length _ bill ks hks
  have hfst : (ks.zip (bill.map Row.cost)).map Prod.fst = ks :=
    zip_map_fst ks (bill.map Row.cost) (by simp [hlen])
  have hkmem : k ∈ (ks.zip (bill.map Row.cost)).map Prod.fst := by
    rw [hfst]; exact hk
  obtain ⟨q, hq⟩ := groupSums_mem_key _ k hkmem
  exact ⟨q, (mem_sortDesc _ _).mpr hq⟩

/-- Witness for C7 at the zero-cost fixture: the zero-cost line item's
resolved key has a group in the output. -/
theorem claim7_no_zero_filter_witness :
    (mapE (group_by_cost_center fixtureDir) zeroBill
        = Except.ok [Value.str "Test / 123123"])
    ∧ (centerGroups zeroBill fixtureDir
        = Except.ok [(Value.str "Test / 123123", 0)])
    ∧ ∃ q : ℚ, (Value.str "Test / 123123", q)
        ∈ ([(Value.str "Test / 123123", (0 : ℚ))] : List (Value × ℚ)) := by
  refine ⟨rfl, rfl, ?_⟩
  exact claim7_no_zero_filter_amended zeroBill fixtureDir
    [Value.str "Test / 123123"] [(Value.str "Test / 123123", 0)] rfl rfl
    (Value.str "Test / 123123") (List.mem_singleton.mpr rfl)

/-- Claim C9: the cost-center breakdown is sorted descending by summed
cost, and on the fixture input with month total `101823.8892761993` the
produced report contains the substring `Total: $101823.89`, the total
rendered with exactly two decimal digits. -/
theorem claim9_sorted_and_total :
    (∀ (bill : List Row) (dir : List DirEntry) (gs : List (Value × ℚ)),
        centerGroups bill dir = Except.ok gs →
        gs.Pairwise (fun a b => b.2 ≤ a.2))
    ∧ strContains (reportOf fixtureBill fixtureDir) "Total: $101823.89" = true := by
  constructor
  · intro bill dir gs h
    unfold centerGroups at h
    cases hks : mapE (group_by_cost_center dir) bill with
    | error e => rw [hks] at h; cases h
    | ok ks =>
      rw [hks] at h
      cases h
      exact pairwise_sortDesc _
  · rfl

/-- Witness for C9 at the fixture input: the produced breakdown and its
descending sortedness. -/
theorem claim9_sorted_and_total_witness :
    centerGroups fixtureBill fixtureDir
        = Except.ok [(Value.str "Test / 123123", fixtureCost)]
    ∧ ([(Value.str "Test / 123123", fixtureCost)] : List (Value × ℚ)).Pairwise
        (fun a b => b.2 ≤ a.2) :=
  ⟨rfl, claim9_sorted_and_total.1 fixtureBill fixtureDir _ rfl⟩

/-- Claim C10: in the two "Costs without a known Program" sections, a group
of the stack or catalog breakdown is rendered exactly when its summed cost
is at least 0.01; smaller or negative groups are omitted from the rendered
list although they are present in the underlying grouping. -/
theorem claim10_small_groups_omitted :
    ∀ (bill : List Row) (dir : List DirEntry) (p : String × ℚ),
      (p ∈ stackSummed bill dir →
        (p ∈ renderedNoCenter (stackSummed bill dir) ↔ (1 : ℚ)/100 ≤ p.2))
      ∧ (p ∈ catalogSummed bill dir →
        (p ∈ renderedNoCenter (catalogSummed bill dir) ↔ (1 : ℚ)/100 ≤ p.2)) := by
  intro bill dir p
  constructor <;> intro hmem <;> simp [renderedNoCenter, List.mem_filter, hmem]

/-- Witness for C10: a half-cent stack group is in the grouping but is not
rendered. -/
theorem claim10_small_groups_omitted_witness :
    ("Cloudformation Stack / mystack", Rat.divInt 1 200) ∈ stackSummed smallBill smallDir
    ∧ (("Cloudformation Stack / mystack", Rat.divInt 1 200)
          ∈ renderedNoCenter (stackSummed smallBill smallDir)
        ↔ (1 : ℚ)/100 ≤ (("Cloudformation Stack / mystack",
            Rat.divInt 1 200) : String × ℚ).2) := by
  refine ⟨?_, (claim10_small_groups_omitted smallBill smallDir
    ("Cloudformation Stack / mystack", Rat.divInt 1 200)).1 ?_⟩ <;> decide
